import Mathlib

/-!
Shallow embedding of the request validation, rate-limiting and
response/error normalization pipeline of the yfinance MCP server
(`remote_yfinance_mcp.py`, with the shared period-echo expression also
appearing in `yfinance_fastmcp.py` and `yfinance_fixed.py`).

Conventions of the embedding:
- Python strings that may be `None` become `Option String`; Python
  truthiness (`if start:`) on such values is the predicate `truthy`.
- Wall-clock readings (`time.time()`, `datetime.now()`) are abstract
  rational parameters threaded through the functions; `time.sleep(d)`
  advances the idealized clock by exactly `d`.
- The upstream call `yf.download(**args)` is an abstract function from
  the argument record to an outcome: either it raises (message and
  exception-class name) or it returns `None` or a table.
- A pandas DataFrame becomes `RawTable`: a column list (name and
  whether the dtype is numeric) and date-indexed rows of cells.  A
  cell is missing (`NaN`), numeric, a string-convertible object, or an
  object whose per-row conversion raises.
- Numeric values are exact rationals.
- The functions return the structured objects that the Python code
  serializes with `json.dumps`; JSON encoding itself is not modelled.
-/

namespace YFinanceMCP

/-- Python truthiness of an optional string: `None` and `""` are falsy. -/
def truthy : Option String → Bool
  | none => false
  | some s => s ≠ ""

/-- `valid_periods` from `validate_parameters`. -/
def valid_periods : List String :=
  ["1d", "5d", "1mo", "3mo", "6mo", "1y", "2y", "5y", "10y", "ytd", "max"]

/-- `valid_intervals` from `validate_parameters`. -/
def valid_intervals : List String :=
  ["1m", "2m", "5m", "15m", "30m", "60m", "90m", "1h", "1d", "5d", "1wk", "1mo", "3mo"]

/-- Days in a month of the proleptic Gregorian calendar, as `datetime`
accepts for the day field. -/
def daysInMonth (y m : Nat) : Nat :=
  if m = 2 then
    if y % 4 = 0 && (y % 100 ≠ 0 || y % 400 = 0) then 29 else 28
  else if m = 4 || m = 6 || m = 9 || m = 11 then 30
  else 31

/-- `str.strip()`: drop leading and trailing whitespace.  (Structural
model of the library function, so concrete instances reduce.) -/
def pyStrip (s : String) : String :=
  String.mk (((s.data.dropWhile Char.isWhitespace).reverse.dropWhile
    Char.isWhitespace).reverse)

/-- Helper for `str.split()`: accumulate maximal non-whitespace runs. -/
def splitWsAux : List Char → List Char → List (List Char)
  | [], acc => if acc.isEmpty then [] else [acc.reverse]
  | c :: cs, acc =>
    if c.isWhitespace then
      if acc.isEmpty then splitWsAux cs [] else acc.reverse :: splitWsAux cs []
    else splitWsAux cs (c :: acc)

/-- `tickers.split()`: split on whitespace runs, dropping empty pieces. -/
def pySplit (s : String) : List String :=
  (splitWsAux s.data []).map String.mk

/-- Split a character list at every occurrence of `sep`
(`s.split(sep)` semantics for a one-character separator). -/
def splitOnChar (sep : Char) : List Char → List (List Char)
  | [] => [[]]
  | c :: cs =>
    if c = sep then [] :: splitOnChar sep cs
    else
      match splitOnChar sep cs with
      | [] => [[c]]
      | w :: ws => (c :: w) :: ws

/-- Value of an all-digit character group. -/
def natOfDigits (l : List Char) : Nat :=
  l.foldl (fun n c => n * 10 + (c.toNat - 48)) 0

/-- Nonempty all-digit group of at most `maxLen` characters. -/
def digitGroup (l : List Char) (maxLen : Nat) : Bool :=
  !l.isEmpty && l.all Char.isDigit && l.length ≤ maxLen

/-- Model of `datetime.strptime(s, '%Y-%m-%d')` succeeding: exactly
three dash-separated digit groups — a 4-digit year and 1–2 digit month
and day — denoting a real calendar date with year at least 1. -/
def strptime_Ymd_ok (s : String) : Bool :=
  match splitOnChar '-' s.data with
  | [ys, ms, ds] =>
    digitGroup ys 4 && ys.length = 4 && digitGroup ms 2 && digitGroup ds 2
      && (let y := natOfDigits ys
          let m := natOfDigits ms
          let d := natOfDigits ds
          1 ≤ y && 1 ≤ m && m ≤ 12 && 1 ≤ d && d ≤ daysInMonth y m)
  | _ => false

/-- Result dictionary of `validate_parameters`. -/
structure ValidationResult where
  valid : Bool
  errors : List String
  warnings : List String
  deriving Repr, DecidableEq

/-- Error message for an empty ticker string. -/
def tickersRequiredMsg : String :=
  "Tickers parameter is required and cannot be empty"

/-- Warning for more than 10 tickers. -/
def manyTickersWarning (n : Nat) : String :=
  "Requesting " ++ toString n ++ " tickers may cause timeouts. Consider smaller batches."

/-- Error message for an invalid period, listing the allowed set. -/
def invalidPeriodMsg (period : String) : String :=
  "Invalid period '" ++ period ++ "'. Valid options: " ++ String.intercalate ", " valid_periods

/-- Error message for an invalid interval, listing the allowed set. -/
def invalidIntervalMsg (interval : String) : String :=
  "Invalid interval '" ++ interval ++ "'. Valid options: " ++ String.intercalate ", " valid_intervals

/-- Error message for a malformed start date. -/
def invalidStartMsg (s : String) : String :=
  "Invalid start date format '" ++ s ++ "'. Use YYYY-MM-DD format."

/-- Error message for a malformed end date. -/
def invalidEndMsg (s : String) : String :=
  "Invalid end date format '" ++ s ++ "'. Use YYYY-MM-DD format."

/-- Warning when both a date range and a non-default period are given. -/
def dateRangeWarning : String :=
  "Both date range and period specified. Date range will take precedence."

/-- `validate_parameters(tickers, period, interval, start, end)`:
runs every check in source order, appending to the shared `errors` and
`warnings` lists. -/
def validate_parameters (tickers period interval : String)
    (start end_ : Option String) : ValidationResult :=
  let errors : List String := []
  let warnings : List String := []
  -- Validate tickers
  let ew : List String × List String :=
    if pyStrip tickers = "" then
      (errors ++ [tickersRequiredMsg], warnings)
    else
      let ticker_list := pySplit tickers
      if 10 < ticker_list.length then
        (errors, warnings ++ [manyTickersWarning ticker_list.length])
      else (errors, warnings)
  let errors := ew.1
  let warnings := ew.2
  -- Validate period
  let errors :=
    if period ≠ "" && !(valid_periods.contains period) then
      errors ++ [invalidPeriodMsg period]
    else errors
  -- Validate interval
  let errors :=
    if !(valid_intervals.contains interval) then
      errors ++ [invalidIntervalMsg interval]
    else errors
  -- Validate date format if provided
  let errors :=
    match start with
    | some s => if s ≠ "" && !(strptime_Ymd_ok s) then errors ++ [invalidStartMsg s] else errors
    | none => errors
  let errors :=
    match end_ with
    | some s => if s ≠ "" && !(strptime_Ymd_ok s) then errors ++ [invalidEndMsg s] else errors
    | none => errors
  -- Check for conflicting parameters
  let warnings :=
    if (truthy start || truthy end_) && period ≠ "1y" then
      warnings ++ [dateRangeWarning]
    else warnings
  { valid := errors.isEmpty, errors := errors, warnings := warnings }

/-- `min_request_interval = 0.5` seconds. -/
def min_request_interval : ℚ := 1 / 2

/-- `rate_limit()` on the idealized clock: given the recorded
`last_request_time` and the current `time.time()` reading, return the
sleep duration performed and the updated `last_request_time` (the
second `time.time()` reading, taken right after the sleep). -/
def rate_limit (last_request_time now : ℚ) : ℚ × ℚ :=
  let time_since_last := now - last_request_time
  let sleep_time :=
    if time_since_last < min_request_interval then
      min_request_interval - time_since_last
    else 0
  (sleep_time, now + sleep_time)

/-- The parameters of the `download_stock_data` tool, with the Python
defaults. -/
structure Request where
  tickers : String
  period : String := "1y"
  interval : String := "1d"
  start : Option String := none
  end_ : Option String := none
  actions : Bool := false
  auto_adjust : Bool := true
  prepost : Bool := false
  repair : Bool := false
  keepna : Bool := false
  rounding : Bool := false
  deriving Repr, DecidableEq

/-- The keyword-argument record handed to `yf.download(**download_args)`.
Optional entries are absent (`none`) when the corresponding `if` in the
source does not add the key. -/
structure DownloadArgs where
  tickers : String
  interval : String
  actions : Bool
  auto_adjust : Bool
  prepost : Bool
  group_by : String
  repair : Bool
  keepna : Bool
  rounding : Bool
  timeout : Nat
  threads : Bool
  progress : Bool
  start : Option String
  end_ : Option String
  period : Option String
  deriving Repr, DecidableEq

/-- One cell of the upstream table: missing (`NaN`), a numeric value, a
non-numeric value whose `str()` succeeds, or a value whose per-row
conversion raises. -/
inductive Cell where
  | na : Cell
  | num : ℚ → Cell
  | str : String → Cell
  | bad : Cell
  deriving Repr, DecidableEq

/-- The upstream provider's tabular response: columns (stringified name
and whether the dtype is numeric) and date-indexed rows of cells. -/
structure RawTable where
  cols : List (String × Bool)
  rows : List (String × List Cell)
  deriving Repr, DecidableEq

/-- `data.empty` in pandas: true when either axis has length zero. -/
def RawTable.empty (t : RawTable) : Bool :=
  t.rows.isEmpty || t.cols.isEmpty

/-- Behaviour of one `yf.download(**args)` call: raise an exception
(message and class name) or return `None` or a table. -/
inductive FetchOutcome where
  | ret : Option RawTable → FetchOutcome
  | raise : String → String → FetchOutcome

/-- The `download_args` dictionary built by `download_stock_data` for
the first attempt (timeout 30, threads on, progress off; start/end keys
only when truthy, else the period key). -/
def build_download_args (req : Request) : DownloadArgs :=
  { tickers := req.tickers
    interval := req.interval
    actions := req.actions
    auto_adjust := req.auto_adjust
    prepost := req.prepost
    group_by := "column"
    repair := req.repair
    keepna := req.keepna
    rounding := req.rounding
    timeout := 30
    threads := true
    progress := false
    start := if truthy req.start then req.start else none
    end_ := if truthy req.end_ then req.end_ else none
    period := if truthy req.start || truthy req.end_ then none else some req.period }

/-- `download_args.update({"timeout": 15, "threads": False})` for the
single retry. -/
def retry_args (a : DownloadArgs) : DownloadArgs :=
  { a with timeout := 15, threads := false }

/-- The `try: data = yf.download(...) except: ... retry` block: at most
two attempts; also records the argument records actually passed to the
upstream fetch, in order. -/
def fetch_with_retry (fetch : DownloadArgs → FetchOutcome) (a : DownloadArgs) :
    Except (String × String) (Option RawTable) × List DownloadArgs :=
  match fetch a with
  | .ret t => (.ok t, [a])
  | .raise _ _ =>
    match fetch (retry_args a) with
    | .ret t => (.ok t, [a, retry_args a])
    | .raise m c => (.error (m, c), [a, retry_args a])

/-- A converted cell value inside a record: `None`, a float, or a
string. -/
def CellValue : Type := Option (ℚ ⊕ String)

instance : DecidableEq CellValue := by
  unfold CellValue
  infer_instance

/-- Conversion of one cell inside the per-row `try`: `none` means the
conversion raised. -/
def convertCell : Cell → Option CellValue
  | .na => some none
  | .num q => some (some (Sum.inl q))
  | .str s => some (some (Sum.inr s))
  | .bad => none

/-- One record of the `data` list: the stringified date and the
per-column converted values. -/
structure DataRecord where
  date : String
  values : List (String × CellValue)
  deriving DecidableEq

/-- Conversion of one row (`record = {"date": str(date)}` then one entry
per column): `none` when any cell's conversion raises, in which case the
whole record is dropped. -/
def convertRow (colNames : List String) (row : String × List Cell) :
    Option DataRecord :=
  ((colNames.zip row.2).mapM fun p => (convertCell p.2).map fun v => (p.1, v)).map
    fun entries => { date := row.1, values := entries }

/-- `min` of a pandas numeric series (NaN-skipping): `none` when no
numeric value is present. -/
def seriesMin : List ℚ → Option ℚ
  | [] => none
  | x :: xs => some (xs.foldl min x)

/-- `max` of a pandas numeric series (NaN-skipping). -/
def seriesMax : List ℚ → Option ℚ
  | [] => none
  | x :: xs => some (xs.foldl max x)

/-- `mean` of a pandas numeric series (NaN-skipping). -/
def seriesMean (l : List ℚ) : Option ℚ :=
  if l.isEmpty then none else some (l.sum / l.length)

/-- The `summary` block of a success result: absent, the statistics
dictionary, or the `{"error": ...}` dictionary produced when statistics
generation raises. -/
inductive Summary where
  | absent : Summary
  | stats (start_date end_date : String) (total_records records_processed : Nat)
      (column : String) (min max mean last_value : Option ℚ) : Summary
  | genError : Summary
  deriving DecidableEq

/-- The cells of column `j` down the rows (`none` when a row is too
short, which would raise on access). -/
def columnCells (j : Nat) (rows : List (String × List Cell)) : List (Option Cell) :=
  rows.map fun r => r.2.get? j

/-- The numeric values present in a column, in row order. -/
def columnNums (cs : List (Option Cell)) : List ℚ :=
  cs.filterMap fun c =>
    match c with
    | some (.num q) => some q
    | _ => none

/-- Whether computing statistics over these cells raises: a missing
cell, a string, or an unconvertible object in a numeric-dtype column. -/
def statsRaise (cs : List (Option Cell)) : Bool :=
  cs.any fun c =>
    match c with
    | some (.num _) => false
    | some .na => false
    | _ => true

/-- `data[first_col].iloc[-1]`, converted: `none` when missing. -/
def lastValue (cs : List (Option Cell)) : Option ℚ :=
  match cs.getLast? with
  | some (some (.num q)) => some q
  | _ => none

/-- The summary block built after record conversion (`if len(data) > 0`,
then `if len(numeric_cols) > 0`, with the inner `try`). -/
def build_summary (d : RawTable) (records_processed : Nat) : Summary :=
  match d.rows with
  | [] => .absent
  | r0 :: _ =>
    match d.cols.findIdx? (fun c => c.2) with
    | none => .absent
    | some j =>
      let colName := ((d.cols.get? j).map Prod.fst).getD ""
      let cs := columnCells j d.rows
      if statsRaise cs then .genError
      else
        let nums := columnNums cs
        .stats r0.1 ((d.rows.getLast?.getD r0).1) d.rows.length records_processed
          colName (seriesMin nums) (seriesMax nums) (seriesMean nums) (lastValue cs)

/-- The `period` field echoed in a success result (the identical
expression appears in `remote_yfinance_mcp.py`, `yfinance_fastmcp.py`
and `yfinance_fixed.py`):
`period if not (start or end) else f"{start or 'N/A'} to {end or 'N/A'}"`. -/
def periodEcho (period : String) (start end_ : Option String) : String :=
  if truthy start || truthy end_ then
    (if truthy start then start.getD "" else "N/A") ++ " to "
      ++ (if truthy end_ then end_.getD "" else "N/A")
  else period

/-- The `request_params` dictionary echoed in every error response. -/
structure EchoParams where
  tickers : String
  period : String
  interval : String
  start : Option String
  end_ : Option String
  deriving Repr, DecidableEq

/-- The request parameters as echoed (verbatim). -/
def echoParams (req : Request) : EchoParams :=
  { tickers := req.tickers, period := req.period, interval := req.interval,
    start := req.start, end_ := req.end_ }

/-- The success object built by `download_stock_data`. -/
structure SuccessResult where
  tickers : String
  period : String
  interval : String
  shape : List Nat
  columns : List String
  data : List DataRecord
  request_time : ℚ
  processing_time_seconds : ℚ
  data_source : String
  warnings : List String
  summary : Summary
  deriving DecidableEq

/-- The fixed `possible_causes` list of a `no_data` response. -/
def noDataCauses : List String :=
  ["Invalid ticker symbol(s)",
   "No trading data for the specified period",
   "Market closed or data not yet available",
   "Yahoo Finance API temporary issues"]

/-- The fixed `suggestions` list of a `no_data` response. -/
def noDataSuggestions : List String :=
  ["Verify ticker symbols are correct",
   "Try a different time period",
   "Check if markets are open",
   "Retry the request after a few moments"]

/-- The structured value returned by `download_stock_data`: a success
object or one of the three tagged error objects, each carrying its
timestamp and the echoed request parameters. -/
inductive Response where
  | validationError (errors : List String) (timestamp : ℚ) (request_params : EchoParams)
  | noData (message : String) (possible_causes suggestions : List String)
      (timestamp : ℚ) (request_params : EchoParams)
  | success (r : SuccessResult)
  | unexpectedError (error_message error_class : String) (timestamp : ℚ)
      (processing_time_seconds : ℚ) (request_params : EchoParams)
  deriving DecidableEq

/-- The `error_type` discriminant (`none` for a success). -/
def Response.error_type : Response → Option String
  | .validationError .. => some "validation_error"
  | .noData .. => some "no_data"
  | .success _ => none
  | .unexpectedError .. => some "unexpected_error"

/-- The echoed `request_params` of an error response. -/
def Response.request_params : Response → Option EchoParams
  | .validationError _ _ p => some p
  | .noData _ _ _ _ p => some p
  | .success _ => none
  | .unexpectedError _ _ _ _ p => some p

/-- The `timestamp` of an error response. -/
def Response.timestamp : Response → Option ℚ
  | .validationError _ t _ => some t
  | .noData _ _ _ t _ => some t
  | .success _ => none
  | .unexpectedError _ _ t _ _ => some t

/-- The outcome of one `download_stock_data` call: the response, the
rate limiter's `last_request_time` after the call, and the argument
records passed to the upstream fetch, in order. -/
structure RunResult where
  response : Response
  last_request_time : ℚ
  fetch_calls : List DownloadArgs
  deriving DecidableEq

/-- The success object for a non-empty table. -/
def build_success (req : Request) (validation : ValidationResult) (d : RawTable)
    (ts procTime : ℚ) : SuccessResult :=
  let colNames := d.cols.map Prod.fst
  let records := d.rows.filterMap (convertRow colNames)
  { tickers := req.tickers
    period := periodEcho req.period req.start req.end_
    interval := req.interval
    shape := [d.rows.length, d.cols.length]
    columns := colNames
    data := records
    request_time := ts
    processing_time_seconds := procTime
    data_source := "Yahoo Finance"
    warnings := validation.warnings
    summary := build_summary d records.length }

/-- `download_stock_data` of `remote_yfinance_mcp.py` on the shallow
embedding.  `fetch` is the upstream provider's behaviour; `last` is the
rate limiter's recorded `last_request_time`; `now` the `time.time()`
reading at the rate-limit gate; `ts` the `datetime.now()` reading used
in timestamps; `procTime` the elapsed-seconds value recorded in the
result. -/
def download_stock_data (req : Request) (fetch : DownloadArgs → FetchOutcome)
    (last now ts procTime : ℚ) : RunResult :=
  let validation := validate_parameters req.tickers req.period req.interval req.start req.end_
  if !validation.valid then
    { response := .validationError validation.errors ts (echoParams req)
      last_request_time := last
      fetch_calls := [] }
  else
    let rl := rate_limit last now
    let args := build_download_args req
    match fetch_with_retry fetch args with
    | (.error (m, c), calls) =>
      { response := .unexpectedError m c ts procTime (echoParams req)
        last_request_time := rl.2
        fetch_calls := calls }
    | (.ok t, calls) =>
      match t with
      | none =>
        { response := .noData ("No data found for ticker(s): " ++ req.tickers)
            noDataCauses noDataSuggestions ts (echoParams req)
          last_request_time := rl.2
          fetch_calls := calls }
      | some d =>
        if d.empty then
          { response := .noData ("No data found for ticker(s): " ++ req.tickers)
              noDataCauses noDataSuggestions ts (echoParams req)
            last_request_time := rl.2
            fetch_calls := calls }
        else
          { response := .success (build_success req validation d ts procTime)
            last_request_time := rl.2
            fetch_calls := calls }

/-! ### Per-check error lists

Each validation check of `validate_parameters`, taken in isolation.
The accumulation lemma below shows the function's error list is the
concatenation of these, so no check masks another. -/

/-- Errors contributed by the tickers check alone. -/
def ticker_errors (tickers : String) : List String :=
  if pyStrip tickers = "" then [tickersRequiredMsg] else []

/-- Errors contributed by the period check alone. -/
def period_errors (period : String) : List String :=
  if period ≠ "" && !(valid_periods.contains period) then [invalidPeriodMsg period] else []

/-- Errors contributed by the interval check alone. -/
def interval_errors (interval : String) : List String :=
  if !(valid_intervals.contains interval) then [invalidIntervalMsg interval] else []

/-- Errors contributed by the start-date check alone. -/
def start_errors (start : Option String) : List String :=
  match start with
  | some s => if s ≠ "" && !(strptime_Ymd_ok s) then [invalidStartMsg s] else []
  | none => []

/-- Errors contributed by the end-date check alone. -/
def end_errors (end_ : Option String) : List String :=
  match end_ with
  | some s => if s ≠ "" && !(strptime_Ymd_ok s) then [invalidEndMsg s] else []
  | none => []

/-- The error list of `validate_parameters` is the concatenation of the
five independent checks' error lists: every check runs and its errors
accumulate, with no short-circuit between checks. -/
lemma validate_parameters_errors_eq (tickers period interval : String)
    (start end_ : Option String) :
    (validate_parameters tickers period interval start end_).errors =
      ticker_errors tickers ++ period_errors period ++ interval_errors interval
        ++ start_errors start ++ end_errors end_ := by
  unfold validate_parameters ticker_errors period_errors interval_errors
    start_errors end_errors
  cases start <;> cases end_ <;> dsimp only <;> split_ifs <;> simp_all

/-- The `valid` flag is definitionally the emptiness of the error list. -/
lemma validate_parameters_valid_iff (tickers period interval : String)
    (start end_ : Option String) :
    (validate_parameters tickers period interval start end_).valid = true ↔
      (validate_parameters tickers period interval start end_).errors = [] := by
  have h : (validate_parameters tickers period interval start end_).valid =
      (validate_parameters tickers period interval start end_).errors.isEmpty := rfl
  rw [h, List.isEmpty_iff]

/-! ### Branch lemmas for the pipeline -/

/-- Shorthand for the validation result of a request. -/
def reqValidation (req : Request) : ValidationResult :=
  validate_parameters req.tickers req.period req.interval req.start req.end_

/-- The no-data error response for a request. -/
def noDataResponse (req : Request) (ts : ℚ) : Response :=
  .noData ("No data found for ticker(s): " ++ req.tickers)
    noDataCauses noDataSuggestions ts (echoParams req)

/-- Valid request whose first fetch returns a table: the pipeline makes
one fetch call and branches on emptiness. -/
lemma download_fetch_ok_some (req : Request) (fetch : DownloadArgs → FetchOutcome)
    (last now ts procTime : ℚ) (d : RawTable)
    (hvalid : (reqValidation req).valid = true)
    (hf : fetch (build_download_args req) = .ret (some d)) :
    download_stock_data req fetch last now ts procTime =
      if d.empty then
        { response := noDataResponse req ts
          last_request_time := (rate_limit last now).2
          fetch_calls := [build_download_args req] }
      else
        { response := .success (build_success req (reqValidation req) d ts procTime)
          last_request_time := (rate_limit last now).2
          fetch_calls := [build_download_args req] } := by
  have hvalid' : (reqValidation req).valid = true := hvalid
  unfold reqValidation at hvalid'
  unfold download_stock_data fetch_with_retry noDataResponse reqValidation
  dsimp only
  rw [hvalid', Bool.not_true, if_neg Bool.false_ne_true, hf]

/-- Valid request whose first fetch returns `None`: one fetch call and
a no-data response. -/
lemma download_fetch_ok_none (req : Request) (fetch : DownloadArgs → FetchOutcome)
    (last now ts procTime : ℚ)
    (hvalid : (reqValidation req).valid = true)
    (hf : fetch (build_download_args req) = .ret none) :
    download_stock_data req fetch last now ts procTime =
      { response := noDataResponse req ts
        last_request_time := (rate_limit last now).2
        fetch_calls := [build_download_args req] } := by
  have hvalid' : (reqValidation req).valid = true := hvalid
  unfold reqValidation at hvalid'
  unfold download_stock_data fetch_with_retry noDataResponse
  dsimp only
  rw [hvalid', Bool.not_true, if_neg Bool.false_ne_true, hf]

/-- Valid request whose first fetch raises: exactly one retry with the
degraded arguments, and the run is decided by the retry's outcome. -/
lemma download_fetch_raise (req : Request) (fetch : DownloadArgs → FetchOutcome)
    (last now ts procTime : ℚ) (m c : String)
    (hvalid : (reqValidation req).valid = true)
    (hf : fetch (build_download_args req) = .raise m c) :
    download_stock_data req fetch last now ts procTime =
      match fetch (retry_args (build_download_args req)) with
      | .ret none =>
        { response := noDataResponse req ts
          last_request_time := (rate_limit last now).2
          fetch_calls := [build_download_args req, retry_args (build_download_args req)] }
      | .ret (some d) =>
        if d.empty then
          { response := noDataResponse req ts
            last_request_time := (rate_limit last now).2
            fetch_calls := [build_download_args req, retry_args (build_download_args req)] }
        else
          { response := .success (build_success req (reqValidation req) d ts procTime)
            last_request_time := (rate_limit last now).2
            fetch_calls := [build_download_args req, retry_args (build_download_args req)] }
      | .raise m' c' =>
        { response := .unexpectedError m' c' ts procTime (echoParams req)
          last_request_time := (rate_limit last now).2
          fetch_calls := [build_download_args req, retry_args (build_download_args req)] } := by
  have hvalid' : (reqValidation req).valid = true := hvalid
  unfold reqValidation at hvalid'
  unfold download_stock_data fetch_with_retry noDataResponse reqValidation
  dsimp only
  rw [hvalid', Bool.not_true, if_neg Bool.false_ne_true, hf]
  cases fetch (retry_args (build_download_args req)) with
  | ret t => cases t <;> rfl
  | raise m' c' => rfl

/-- Inversion: a success response can only arise from a valid request
and a fetch that delivered a non-empty table; the success object is
`build_success` on that table. -/
lemma download_success_inv (req : Request) (fetch : DownloadArgs → FetchOutcome)
    (last now ts procTime : ℚ) (s : SuccessResult)
    (h : (download_stock_data req fetch last now ts procTime).response = .success s) :
    (reqValidation req).valid = true ∧
    ∃ d : RawTable,
      (fetch_with_retry fetch (build_download_args req)).1 = .ok (some d) ∧
      d.empty = false ∧
      s = build_success req (reqValidation req) d ts procTime := by
  unfold download_stock_data at h
  dsimp only at h
  by_cases hv : (validate_parameters req.tickers req.period req.interval req.start req.end_).valid = true
  · refine ⟨hv, ?_⟩
    rw [hv, Bool.not_true, if_neg Bool.false_ne_true] at h
    rcases hfr : fetch_with_retry fetch (build_download_args req) with ⟨res, calls⟩
    rw [hfr] at h
    match res with
    | .error (m, c) => simp at h
    | .ok none => simp at h
    | .ok (some d) =>
      dsimp only at h
      by_cases he : d.empty = true
      · rw [if_pos he] at h
        simp at h
      · rw [if_neg he] at h
        simp only [Response.success.injEq] at h
        exact ⟨d, rfl, Bool.not_eq_true _ ▸ he, h.symm⟩
  · rw [Bool.not_eq_true] at hv
    rw [hv, Bool.not_false, if_pos rfl] at h
    simp at h

/-- Claim C1: for every input to `download_stock_data` and every
behaviour of the upstream fetch (including raising on both attempts),
the operation returns a structured response — a success, or an error
tagged with exactly one of `validation_error`, `no_data`,
`unexpected_error`, carrying a timestamp and the echoed request
parameters. -/
theorem claim_C1_no_uncaught_failures (req : Request)
    (fetch : DownloadArgs → FetchOutcome) (last now ts procTime : ℚ) :
    (∃ s, (download_stock_data req fetch last now ts procTime).response = .success s) ∨
    ((download_stock_data req fetch last now ts procTime).response.error_type = some "validation_error" ∨
      (download_stock_data req fetch last now ts procTime).response.error_type = some "no_data" ∨
      (download_stock_data req fetch last now ts procTime).response.error_type = some "unexpected_error") ∧
    (download_stock_data req fetch last now ts procTime).response.timestamp = some ts ∧
    (download_stock_data req fetch last now ts procTime).response.request_params = some (echoParams req) := by
  unfold download_stock_data
  dsimp only
  split
  · exact Or.inr ⟨Or.inl rfl, rfl, rfl⟩
  · split
    · exact Or.inr ⟨Or.inr (Or.inr rfl), rfl, rfl⟩
    · split
      · exact Or.inr ⟨Or.inr (Or.inl rfl), rfl, rfl⟩
      · split
        · exact Or.inr ⟨Or.inr (Or.inl rfl), rfl, rfl⟩
        · exact Or.inl ⟨_, rfl⟩

/-- Claim C2: every validation check runs and the errors accumulate
(the error list is the concatenation of the five independent checks),
`valid` holds exactly when the error list is empty, and an invalid
request yields a `validation_error` response listing all accumulated
errors with no upstream fetch call and the rate limiter's recorded
timestamp unchanged. -/
theorem claim_C2_validation_accumulates_and_gates (req : Request)
    (fetch : DownloadArgs → FetchOutcome) (last now ts procTime : ℚ) :
    (validate_parameters req.tickers req.period req.interval req.start req.end_).errors =
      ticker_errors req.tickers ++ period_errors req.period ++ interval_errors req.interval
        ++ start_errors req.start ++ end_errors req.end_
    ∧ ((validate_parameters req.tickers req.period req.interval req.start req.end_).valid = true ↔
        (validate_parameters req.tickers req.period req.interval req.start req.end_).errors = [])
    ∧ ((validate_parameters req.tickers req.period req.interval req.start req.end_).valid = false →
        download_stock_data req fetch last now ts procTime =
          { response := .validationError
              (validate_parameters req.tickers req.period req.interval req.start req.end_).errors
              ts (echoParams req)
            last_request_time := last
            fetch_calls := [] }) := by
  refine ⟨validate_parameters_errors_eq _ _ _ _ _,
    validate_parameters_valid_iff _ _ _ _ _, fun h => ?_⟩
  simp [download_stock_data, h]

/-- Claim C2 witness: an empty ticker string is rejected with the
accumulated error list, no fetch call and an unchanged rate-limiter
timestamp. -/
theorem claim_C2_witness :
    download_stock_data { tickers := "" } (fun _ => .ret none) 0 0 0 0 =
      { response := .validationError
          (validate_parameters "" "1y" "1d" none none).errors 0 (echoParams { tickers := "" })
        last_request_time := 0
        fetch_calls := [] } :=
  (claim_C2_validation_accumulates_and_gates { tickers := "" } (fun _ => .ret none) 0 0 0 0).2.2
    (by decide)

/-- Claim C3: when the first upstream fetch of a validated request
raises, the fetch is retried exactly once — the argument records passed
upstream are precisely the original one (timeout 30, parallel fetch on)
followed by the degraded one (timeout 15, parallel fetch off) — and if
the retry also raises, the response is an `unexpected_error` carrying
that exception's message and class name, with no further retries. -/
theorem claim_C3_retry_once (req : Request) (fetch : DownloadArgs → FetchOutcome)
    (last now ts procTime : ℚ) (m c : String)
    (hvalid : (reqValidation req).valid = true)
    (hfail : fetch (build_download_args req) = .raise m c) :
    (download_stock_data req fetch last now ts procTime).fetch_calls =
      [build_download_args req, retry_args (build_download_args req)]
    ∧ (build_download_args req).timeout = 30
    ∧ (build_download_args req).threads = true
    ∧ retry_args (build_download_args req) =
        { build_download_args req with timeout := 15, threads := false }
    ∧ (∀ m' c', fetch (retry_args (build_download_args req)) = .raise m' c' →
        (download_stock_data req fetch last now ts procTime).response =
          .unexpectedError m' c' ts procTime (echoParams req)) := by
  have hd := download_fetch_raise req fetch last now ts procTime m c hvalid hfail
  refine ⟨?_, rfl, rfl, rfl, ?_⟩
  · rw [hd]
    cases fetch (retry_args (build_download_args req)) with
    | ret t =>
      cases t with
      | none => rfl
      | some d =>
        dsimp only
        split <;> rfl
    | raise m' c' => rfl
  · intro m' c' hr
    rw [hd, hr]

/-- Claim C3 witness: an upstream that raises on both attempts produces
exactly two fetch calls and an `unexpected_error` carrying the second
exception's message and class. -/
theorem claim_C3_witness :
    (download_stock_data { tickers := "AAPL" }
        (fun _ => FetchOutcome.raise "boom" "OSError") 0 0 0 0).fetch_calls =
      [build_download_args { tickers := "AAPL" },
        retry_args (build_download_args { tickers := "AAPL" })]
    ∧ (download_stock_data { tickers := "AAPL" }
        (fun _ => FetchOutcome.raise "boom" "OSError") 0 0 0 0).response =
      .unexpectedError "boom" "OSError" 0 0 (echoParams { tickers := "AAPL" }) := by
  have h := claim_C3_retry_once { tickers := "AAPL" }
    (fun _ => FetchOutcome.raise "boom" "OSError") 0 0 0 0 "boom" "OSError" (by decide) rfl
  exact ⟨h.1, h.2.2.2.2 "boom" "OSError" rfl⟩

/-- Claim C4: a validated request whose upstream fetch returns an
absent table or a zero-row table yields a `no_data` response whose
echoed request parameters are the original values unchanged, together
with the fixed possible-causes and suggestions lists. -/
theorem claim_C4_no_data_echo (req : Request) (fetch : DownloadArgs → FetchOutcome)
    (last now ts procTime : ℚ)
    (hvalid : (reqValidation req).valid = true)
    (h : fetch (build_download_args req) = .ret none ∨
      ∃ d : RawTable, fetch (build_download_args req) = .ret (some d) ∧ d.rows = []) :
    (download_stock_data req fetch last now ts procTime).response = noDataResponse req ts
    ∧ noDataResponse req ts =
        .noData ("No data found for ticker(s): " ++ req.tickers) noDataCauses noDataSuggestions
          ts
          { tickers := req.tickers, period := req.period, interval := req.interval,
            start := req.start, end_ := req.end_ } := by
  refine ⟨?_, rfl⟩
  rcases h with h | ⟨d, hf, hrows⟩
  · rw [download_fetch_ok_none req fetch last now ts procTime hvalid h]
  · have he : d.empty = true := by simp [RawTable.empty, hrows]
    rw [download_fetch_ok_some req fetch last now ts procTime d hvalid hf, if_pos he]

/-- Claim C4 witness: a zero-row table produces the no-data response
echoing the request. -/
theorem claim_C4_witness :
    (download_stock_data { tickers := "AAPL" }
        (fun _ => FetchOutcome.ret (some { cols := [("Close", true)], rows := [] }))
        0 0 0 0).response =
      noDataResponse { tickers := "AAPL" } 0 :=
  (claim_C4_no_data_echo { tickers := "AAPL" }
    (fun _ => FetchOutcome.ret (some { cols := [("Close", true)], rows := [] })) 0 0 0 0
    (by decide) (Or.inr ⟨_, rfl, rfl⟩)).1

/-- Claim C6: the rate limiter's updated timestamp — the instant the
upstream invocation may begin — is at least `min_request_interval`
(500 ms) after the recorded last-call timestamp; when the elapsed time
is below the interval the caller sleeps for exactly the remaining
delta, otherwise it does not sleep; and the timestamp is updated to the
post-sleep instant. -/
theorem claim_C6_rate_limit_spacing (last now : ℚ) :
    last + min_request_interval ≤ (rate_limit last now).2
    ∧ (rate_limit last now).2 = now + (rate_limit last now).1
    ∧ (now - last < min_request_interval →
        (rate_limit last now).1 = min_request_interval - (now - last))
    ∧ (min_request_interval ≤ now - last →
        (rate_limit last now).1 = 0 ∧ (rate_limit last now).2 = now) := by
  unfold rate_limit
  dsimp only
  split_ifs with h
  · refine ⟨by linarith, by ring, fun _ => rfl, fun h' => absurd h (not_lt.mpr h')⟩
  · refine ⟨by simp; linarith [not_lt.mp h], by ring, fun h' => absurd h' h, fun _ => ⟨rfl, by ring⟩⟩

/-- Claim C6 witness: two back-to-back calls (current reading equal to
the recorded timestamp) sleep for the full interval and restart no
earlier than 500 ms after the recorded last call. -/
theorem claim_C6_witness :
    (0 : ℚ) + min_request_interval ≤ (rate_limit 0 0).2 ∧
    (rate_limit 0 0).1 = min_request_interval - (0 - 0) :=
  ⟨(claim_C6_rate_limit_spacing 0 0).1,
    (claim_C6_rate_limit_spacing 0 0).2.2.1 (by norm_num [min_request_interval])⟩

/-- Claim C7: a given (truthy) period outside the allowed set, or any
interval outside the allowed set, makes the validation result invalid
and records an error message listing the full allowed set for the
offending parameter. -/
theorem claim_C7_unknown_period_interval (tickers period interval : String)
    (start end_ : Option String) :
    (period ≠ "" → period ∉ valid_periods →
      (validate_parameters tickers period interval start end_).valid = false
      ∧ invalidPeriodMsg period ∈ (validate_parameters tickers period interval start end_).errors
      ∧ invalidPeriodMsg period =
          "Invalid period '" ++ period ++ "'. Valid options: "
            ++ String.intercalate ", " valid_periods)
    ∧ (interval ∉ valid_intervals →
      (validate_parameters tickers period interval start end_).valid = false
      ∧ invalidIntervalMsg interval ∈ (validate_parameters tickers period interval start end_).errors
      ∧ invalidIntervalMsg interval =
          "Invalid interval '" ++ interval ++ "'. Valid options: "
            ++ String.intercalate ", " valid_intervals) := by
  constructor
  · intro hne hout
    have hmem : invalidPeriodMsg period ∈
        (validate_parameters tickers period interval start end_).errors := by
      rw [validate_parameters_errors_eq]
      have : period_errors period = [invalidPeriodMsg period] := by
        simp [period_errors, hne, hout]
      simp [this]
    refine ⟨?_, hmem, rfl⟩
    by_contra h
    rw [Bool.not_eq_false, validate_parameters_valid_iff] at h
    rw [h] at hmem
    exact absurd hmem (List.not_mem_nil _)
  · intro hout
    have hmem : invalidIntervalMsg interval ∈
        (validate_parameters tickers period interval start end_).errors := by
      rw [validate_parameters_errors_eq]
      have : interval_errors interval = [invalidIntervalMsg interval] := by
        simp [interval_errors, hout]
      simp [this]
    refine ⟨?_, hmem, rfl⟩
    by_contra h
    rw [Bool.not_eq_false, validate_parameters_valid_iff] at h
    rw [h] at hmem
    exact absurd hmem (List.not_mem_nil _)

/-- Claim C7 witness: period `"zz"` and interval `"qq"` are both
rejected with the allowed-set messages. -/
theorem claim_C7_witness :
    ((validate_parameters "AAPL" "zz" "qq" none none).valid = false
      ∧ invalidPeriodMsg "zz" ∈ (validate_parameters "AAPL" "zz" "qq" none none).errors
      ∧ invalidPeriodMsg "zz" =
          "Invalid period 'zz'. Valid options: " ++ String.intercalate ", " valid_periods)
    ∧ ((validate_parameters "AAPL" "zz" "qq" none none).valid = false
      ∧ invalidIntervalMsg "qq" ∈ (validate_parameters "AAPL" "zz" "qq" none none).errors
      ∧ invalidIntervalMsg "qq" =
          "Invalid interval 'qq'. Valid options: " ++ String.intercalate ", " valid_intervals) :=
  ⟨(claim_C7_unknown_period_interval "AAPL" "zz" "qq" none none).1 (by decide) (by decide),
    (claim_C7_unknown_period_interval "AAPL" "zz" "qq" none none).2 (by decide)⟩

/-! ### Arithmetic facts about the series statistics -/

/-- A left fold of `min` is a lower bound of the seed and all elements. -/
lemma foldl_min_bounds : ∀ (xs : List ℚ) (x : ℚ),
    xs.foldl min x ≤ x ∧ ∀ y ∈ xs, xs.foldl min x ≤ y := by
  intro xs
  induction xs with
  | nil => intro x; exact ⟨le_refl x, by simp⟩
  | cons a t ih =>
    intro x
    have h := ih (min x a)
    refine ⟨le_trans h.1 (min_le_left x a), ?_⟩
    intro y hy
    rcases List.mem_cons.mp hy with rfl | hy
    · exact le_trans h.1 (min_le_right x y)
    · exact h.2 y hy

/-- A left fold of `max` is an upper bound of the seed and all elements. -/
lemma foldl_max_bounds : ∀ (xs : List ℚ) (x : ℚ),
    x ≤ xs.foldl max x ∧ ∀ y ∈ xs, y ≤ xs.foldl max x := by
  intro xs
  induction xs with
  | nil => intro x; exact ⟨le_refl x, by simp⟩
  | cons a t ih =>
    intro x
    have h := ih (max x a)
    refine ⟨le_trans (le_max_left x a) h.1, ?_⟩
    intro y hy
    rcases List.mem_cons.mp hy with rfl | hy
    · exact le_trans (le_max_right x y) h.1
    · exact h.2 y hy

/-- A uniform lower bound on the elements bounds the sum from below. -/
lemma mul_length_le_sum (l : List ℚ) (c : ℚ) (h : ∀ y ∈ l, c ≤ y) :
    c * l.length ≤ l.sum := by
  induction l with
  | nil => simp
  | cons a t ih =>
    have ha := h a (List.mem_cons_self a t)
    have iht := ih fun y hy => h y (List.mem_cons_of_mem _ hy)
    simp only [List.sum_cons, List.length_cons, Nat.cast_add, Nat.cast_one]
    calc c * (t.length + 1) = c * t.length + c := by ring
      _ ≤ t.sum + a := add_le_add iht ha
      _ = a + t.sum := by ring

/-- A uniform upper bound on the elements bounds the sum from above. -/
lemma sum_le_mul_length (l : List ℚ) (c : ℚ) (h : ∀ y ∈ l, y ≤ c) :
    l.sum ≤ c * l.length := by
  induction l with
  | nil => simp
  | cons a t ih =>
    have ha := h a (List.mem_cons_self a t)
    have iht := ih fun y hy => h y (List.mem_cons_of_mem _ hy)
    simp only [List.sum_cons, List.length_cons, Nat.cast_add, Nat.cast_one]
    calc a + t.sum ≤ c + c * t.length := add_le_add ha iht
      _ = c * (t.length + 1) := by ring

/-- On a nonempty series the NaN-skipping min, max and mean are all
present and satisfy `min ≤ mean ≤ max`. -/
lemma series_min_mean_max (l : List ℚ) (hl : l ≠ []) :
    ∃ mn mx me, seriesMin l = some mn ∧ seriesMax l = some mx ∧
      seriesMean l = some me ∧ mn ≤ me ∧ me ≤ mx := by
  rcases l with _ | ⟨x, xs⟩
  · exact absurd rfl hl
  refine ⟨xs.foldl min x, xs.foldl max x, (x :: xs).sum / (x :: xs).length,
    rfl, rfl, ?_, ?_, ?_⟩
  · unfold seriesMean
    rw [if_neg (by simp)]
  · have hlen : (0 : ℚ) < (x :: xs).length := by
      simp only [List.length_cons]
      positivity
    rw [le_div_iff₀ hlen]
    refine mul_length_le_sum _ _ ?_
    intro y hy
    rcases List.mem_cons.mp hy with rfl | hy
    · exact (foldl_min_bounds xs y).1
    · exact (foldl_min_bounds xs x).2 y hy
  · have hlen : (0 : ℚ) < (x :: xs).length := by
      simp only [List.length_cons]
      positivity
    rw [div_le_iff₀ hlen]
    refine sum_le_mul_length _ _ ?_
    intro y hy
    rcases List.mem_cons.mp hy with rfl | hy
    · exact (foldl_max_bounds xs y).1
    · exact (foldl_max_bounds xs x).2 y hy

/-- Valid request whose fetch (after possible retry) delivered a
non-empty table: the response is the success object for that table. -/
lemma download_of_fwr_ok_some (req : Request) (fetch : DownloadArgs → FetchOutcome)
    (last now ts procTime : ℚ) (d : RawTable)
    (hvalid : (reqValidation req).valid = true)
    (hfr : (fetch_with_retry fetch (build_download_args req)).1 = .ok (some d))
    (hne : d.empty = false) :
    (download_stock_data req fetch last now ts procTime).response =
      .success (build_success req (reqValidation req) d ts procTime) := by
  have hvalid' : (reqValidation req).valid = true := hvalid
  unfold reqValidation at hvalid'
  unfold download_stock_data
  dsimp only
  rw [hvalid', Bool.not_true, if_neg Bool.false_ne_true]
  rcases hp : fetch_with_retry fetch (build_download_args req) with ⟨res, calls⟩
  rw [hp] at hfr
  dsimp only at hfr
  subst hfr
  dsimp only
  rw [if_neg (by rw [hne]; exact Bool.false_ne_true)]
  rfl

/-- `metadata.request_time` and `metadata.processing_time_seconds`
zeroed out, for comparing two runs field-by-field. -/
def SuccessResult.eraseTimes (s : SuccessResult) : SuccessResult :=
  { s with request_time := 0, processing_time_seconds := 0 }

/-- Claim C9: two pipeline calls with identical parameters and the same
(stable, pure) upstream behaviour produce success results that agree on
every field except `metadata.request_time` and
`metadata.processing_time_seconds`, whatever the clock readings of the
two runs. -/
theorem claim_C9_idempotence (req : Request) (fetch : DownloadArgs → FetchOutcome)
    (last now ts procTime last' now' ts' procTime' : ℚ) (s : SuccessResult)
    (h : (download_stock_data req fetch last now ts procTime).response = .success s) :
    ∃ s', (download_stock_data req fetch last' now' ts' procTime').response = .success s'
      ∧ s'.eraseTimes = s.eraseTimes := by
  obtain ⟨hv, d, hfr, hne, hs⟩ := download_success_inv req fetch last now ts procTime s h
  refine ⟨build_success req (reqValidation req) d ts' procTime',
    download_of_fwr_ok_some req fetch last' now' ts' procTime' d hv hfr hne, ?_⟩
  rw [hs]
  rfl

/-- Claim C10: in every success result, the echoed `period` field is
the request's period exactly when neither start nor end is (truthily)
given, and otherwise is the string `"{start} to {end}"` with `N/A` for
an absent bound. -/
theorem claim_C10_period_echo (req : Request) (fetch : DownloadArgs → FetchOutcome)
    (last now ts procTime : ℚ) (s : SuccessResult)
    (h : (download_stock_data req fetch last now ts procTime).response = .success s) :
    s.period = periodEcho req.period req.start req.end_
    ∧ ((truthy req.start || truthy req.end_) = true →
        s.period = (if truthy req.start then req.start.getD "" else "N/A") ++ " to "
          ++ (if truthy req.end_ then req.end_.getD "" else "N/A"))
    ∧ ((truthy req.start || truthy req.end_) = false → s.period = req.period) := by
  obtain ⟨hv, d, hfr, hne, hs⟩ := download_success_inv req fetch last now ts procTime s h
  subst hs
  refine ⟨rfl, fun ht => ?_, fun hf => ?_⟩
  · show periodEcho req.period req.start req.end_ = _
    unfold periodEcho
    rw [if_pos ht]
  · show periodEcho req.period req.start req.end_ = _
    unfold periodEcho
    rw [if_neg (by rw [hf]; exact Bool.false_ne_true)]

/-- A small stable upstream table shared by the concrete witnesses. -/
def exTable1 : RawTable :=
  { cols := [("Close", true)]
    rows := [("2024-01-02", [Cell.num 3]), ("2024-01-03", [Cell.num 5])] }

/-- Claim C9 witness: the same request and upstream run at two
different clock settings agree after zeroing the two time fields. -/
theorem claim_C9_witness :
    ∃ s', (download_stock_data { tickers := "AAPL" }
        (fun _ => FetchOutcome.ret (some exTable1)) 1 2 3 4).response = .success s'
      ∧ s'.eraseTimes =
        (build_success { tickers := "AAPL" } (reqValidation { tickers := "AAPL" })
          exTable1 30 40).eraseTimes :=
  claim_C9_idempotence { tickers := "AAPL" } (fun _ => FetchOutcome.ret (some exTable1))
    29 29 30 40 1 2 3 4
    (build_success { tickers := "AAPL" } (reqValidation { tickers := "AAPL" }) exTable1 30 40)
    (by rfl)

/-- Claim C10 witness: with `start` supplied and `end` absent the
success result's period field is `"2024-01-01 to N/A"`. -/
theorem claim_C10_witness :
    (build_success { tickers := "AAPL", start := some "2024-01-01" }
      (reqValidation { tickers := "AAPL", start := some "2024-01-01" })
      exTable1 0 0).period = "2024-01-01 to N/A" := by
  have h := claim_C10_period_echo { tickers := "AAPL", start := some "2024-01-01" }
    (fun _ => FetchOutcome.ret (some exTable1)) 0 0 0 0
    (build_success { tickers := "AAPL", start := some "2024-01-01" }
      (reqValidation { tickers := "AAPL", start := some "2024-01-01" }) exTable1 0 0)
    (by rfl)
  rw [h.2.1 (by decide)]
  rfl

/-- A non-empty table with no numeric column whose second row fails
conversion: the failed row is skipped, but the success path attaches no
summary, so neither `total_records` nor `records_processed` is reported
anywhere in the result. -/
def textOnlyTable : RawTable :=
  { cols := [("Note", false)]
    rows := [("2024-01-02", [Cell.str "hello"]), ("2024-01-03", [Cell.bad])] }

/-- Claim C5 counterexample: for this non-empty two-row table without a
numeric column, one row fails conversion and is omitted (the response
is still a success with one record), yet the summary is absent, so the
total and processed row counts are reported nowhere in the result,
contrary to the claim's universal "for every non-empty upstream
table ... the result reports both". -/
theorem claim_C5_counterexample :
    textOnlyTable.rows.length = 2
    ∧ (download_stock_data { tickers := "AAPL" }
        (fun _ => FetchOutcome.ret (some textOnlyTable)) 0 0 0 0).response =
      .success (build_success { tickers := "AAPL" }
        (reqValidation { tickers := "AAPL" }) textOnlyTable 0 0)
    ∧ (build_success { tickers := "AAPL" } (reqValidation { tickers := "AAPL" })
        textOnlyTable 0 0).data.length = 1
    ∧ (build_success { tickers := "AAPL" } (reqValidation { tickers := "AAPL" })
        textOnlyTable 0 0).summary = Summary.absent :=
  ⟨rfl, rfl, rfl, rfl⟩

/-- Claim C5 (amended): on a non-empty table, a conversion failure on
an individual row only omits that row — `data` is exactly the
row-by-row conversion with the failed rows dropped — and, provided a
numeric column exists and statistics generation does not raise, the
summary reports the total row count alongside the number of rows
successfully processed. -/
theorem claim_C5_skipped_rows (req : Request) (fetch : DownloadArgs → FetchOutcome)
    (last now ts procTime : ℚ) (d : RawTable)
    (hvalid : (reqValidation req).valid = true)
    (hf : fetch (build_download_args req) = .ret (some d))
    (hne : d.empty = false)
    (j : Nat) (hj : d.cols.findIdx? (fun c => c.2) = some j)
    (hok : statsRaise (columnCells j d.rows) = false) :
    ∃ s, (download_stock_data req fetch last now ts procTime).response = .success s
      ∧ s.data = d.rows.filterMap (convertRow (d.cols.map Prod.fst))
      ∧ ∃ sd ed col mn mx me lv,
          s.summary = Summary.stats sd ed d.rows.length s.data.length col mn mx me lv := by
  have hfr : (fetch_with_retry fetch (build_download_args req)).1 = .ok (some d) := by
    unfold fetch_with_retry
    rw [hf]
  have hresp := download_of_fwr_ok_some req fetch last now ts procTime d hvalid hfr hne
  refine ⟨_, hresp, rfl, ?_⟩
  have hr : d.rows ≠ [] := by
    intro h0
    unfold RawTable.empty at hne
    rw [h0] at hne
    simp at hne
  obtain ⟨r0, rest, hrows⟩ := List.exists_cons_of_ne_nil hr
  have hsum : (build_success req (reqValidation req) d ts procTime).summary =
      Summary.stats r0.1 ((d.rows.getLast?.getD r0).1) d.rows.length
        ((d.rows.filterMap (convertRow (d.cols.map Prod.fst))).length)
        (((d.cols.get? j).map Prod.fst).getD "")
        (seriesMin (columnNums (columnCells j d.rows)))
        (seriesMax (columnNums (columnCells j d.rows)))
        (seriesMean (columnNums (columnCells j d.rows)))
        (lastValue (columnCells j d.rows)) := by
    show build_summary d ((d.rows.filterMap (convertRow (d.cols.map Prod.fst))).length) = _
    unfold build_summary
    rw [hrows] at hok ⊢
    dsimp only
    rw [hj]
    dsimp only
    rw [if_neg (by rw [hok]; exact Bool.false_ne_true)]
  exact ⟨r0.1, (d.rows.getLast?.getD r0).1,
    ((d.cols.get? j).map Prod.fst).getD "",
    seriesMin (columnNums (columnCells j d.rows)),
    seriesMax (columnNums (columnCells j d.rows)),
    seriesMean (columnNums (columnCells j d.rows)),
    lastValue (columnCells j d.rows), hsum⟩

/-- A ten-row table whose third row has an unconvertible value in its
non-numeric column, so exactly that row's conversion raises. -/
def partialTable : RawTable :=
  { cols := [("Close", true), ("Obj", false)]
    rows := [("d1", [Cell.num 1, Cell.str "x"]),
             ("d2", [Cell.num 2, Cell.str "x"]),
             ("d3", [Cell.num 3, Cell.bad]),
             ("d4", [Cell.num 4, Cell.str "x"]),
             ("d5", [Cell.num 5, Cell.str "x"]),
             ("d6", [Cell.num 6, Cell.str "x"]),
             ("d7", [Cell.num 7, Cell.str "x"]),
             ("d8", [Cell.num 8, Cell.str "x"]),
             ("d9", [Cell.num 9, Cell.str "x"]),
             ("d10", [Cell.num 10, Cell.str "x"])] }

/-- Claim C5 witness: row 3 of 10 fails conversion, and the result has
9 records with `total_records = 10` and `records_processed = 9`. -/
theorem claim_C5_witness :
    ∃ s, (download_stock_data { tickers := "AAPL" }
        (fun _ => FetchOutcome.ret (some partialTable)) 0 0 0 0).response = .success s
      ∧ s.data.length = 9
      ∧ ∃ sd ed col mn mx me lv,
          s.summary = Summary.stats sd ed 10 9 col mn mx me lv := by
  obtain ⟨s, h1, h2, sd, ed, col, mn, mx, me, lv, h3⟩ :=
    claim_C5_skipped_rows { tickers := "AAPL" }
      (fun _ => FetchOutcome.ret (some partialTable)) 0 0 0 0 partialTable
      (by decide) rfl rfl 0 rfl rfl
  have hlen : s.data.length = 9 := by rw [h2]; rfl
  refine ⟨s, h1, hlen, sd, ed, col, mn, mx, me, lv, ?_⟩
  rw [← hlen]
  exact h3

/-- A non-empty table whose only (numeric) column is entirely missing
values: pandas' NaN-skipping statistics all come out `NaN`, hence
`None` in the result. -/
def allNaNTable : RawTable :=
  { cols := [("Close", true)]
    rows := [("2024-01-02", [Cell.na])] }

/-- Claim C8 counterexample: a valid request answered by a non-empty
one-row table whose numeric column holds only a missing value produces
a `first_column_stats` block whose min, max and mean are all null,
contrary to the claim's "non-null min ≤ mean ≤ max" whenever a numeric
column exists. -/
theorem claim_C8_counterexample :
    (allNaNTable.cols.filter (fun c => c.2)).length = 1
    ∧ allNaNTable.rows.length = 1
    ∧ (download_stock_data { tickers := "AAPL" }
        (fun _ => FetchOutcome.ret (some allNaNTable)) 0 0 0 0).response =
      .success (build_success { tickers := "AAPL" }
        (reqValidation { tickers := "AAPL" }) allNaNTable 0 0)
    ∧ (build_success { tickers := "AAPL" } (reqValidation { tickers := "AAPL" })
        allNaNTable 0 0).summary =
      Summary.stats "2024-01-02" "2024-01-02" 1 1 "Close" none none none none :=
  ⟨rfl, rfl, rfl, rfl⟩

/-- Claim C8 (amended): a valid request answered by a non-empty table
of N rows and C columns yields `shape = [N, C]`, C column names, at
most N data records, and — when a first numeric column exists whose
cells are numeric-or-missing with at least one numeric value — a
first-column statistics block with non-null min, max and mean
satisfying `min ≤ mean ≤ max`. -/
theorem claim_C8_shape_and_stats (req : Request) (fetch : DownloadArgs → FetchOutcome)
    (last now ts procTime : ℚ) (d : RawTable)
    (hvalid : (reqValidation req).valid = true)
    (hf : fetch (build_download_args req) = .ret (some d))
    (hne : d.empty = false) :
    ∃ s, (download_stock_data req fetch last now ts procTime).response = .success s
      ∧ s.shape = [d.rows.length, d.cols.length]
      ∧ s.columns.length = d.cols.length
      ∧ s.data.length ≤ d.rows.length
      ∧ ∀ j, d.cols.findIdx? (fun c => c.2) = some j →
          statsRaise (columnCells j d.rows) = false →
          columnNums (columnCells j d.rows) ≠ [] →
          ∃ sd ed col mn mx me lv,
            s.summary = Summary.stats sd ed d.rows.length s.data.length col
              (some mn) (some mx) (some me) lv
            ∧ mn ≤ me ∧ me ≤ mx := by
  have hfr : (fetch_with_retry fetch (build_download_args req)).1 = .ok (some d) := by
    unfold fetch_with_retry
    rw [hf]
  have hresp := download_of_fwr_ok_some req fetch last now ts procTime d hvalid hfr hne
  refine ⟨_, hresp, rfl, List.length_map _ _, List.length_filterMap_le _ _, ?_⟩
  intro j hj hok hnums
  have hr : d.rows ≠ [] := by
    intro h0
    unfold RawTable.empty at hne
    rw [h0] at hne
    simp at hne
  obtain ⟨r0, rest, hrows⟩ := List.exists_cons_of_ne_nil hr
  obtain ⟨mn, mx, me, hmn, hmx, hme, hb1, hb2⟩ :=
    series_min_mean_max (columnNums (columnCells j d.rows)) hnums
  have hsum : (build_success req (reqValidation req) d ts procTime).summary =
      Summary.stats r0.1 ((d.rows.getLast?.getD r0).1) d.rows.length
        ((d.rows.filterMap (convertRow (d.cols.map Prod.fst))).length)
        (((d.cols.get? j).map Prod.fst).getD "")
        (seriesMin (columnNums (columnCells j d.rows)))
        (seriesMax (columnNums (columnCells j d.rows)))
        (seriesMean (columnNums (columnCells j d.rows)))
        (lastValue (columnCells j d.rows)) := by
    show build_summary d ((d.rows.filterMap (convertRow (d.cols.map Prod.fst))).length) = _
    unfold build_summary
    rw [hrows] at hok ⊢
    dsimp only
    rw [hj]
    dsimp only
    rw [if_neg (by rw [hok]; exact Bool.false_ne_true)]
  rw [hmn, hmx, hme] at hsum
  exact ⟨r0.1, (d.rows.getLast?.getD r0).1,
    ((d.cols.get? j).map Prod.fst).getD "", mn, mx, me,
    lastValue (columnCells j d.rows), hsum, hb1, hb2⟩

/-- Claim C8 witness: a two-row table with closes 3 and 5 yields
`shape = [2, 1]` and a stats block with `min ≤ mean ≤ max` all
present. -/
theorem claim_C8_witness :
    ∃ s, (download_stock_data { tickers := "AAPL" }
        (fun _ => FetchOutcome.ret (some exTable1)) 0 0 0 0).response = .success s
      ∧ s.shape = [2, 1]
      ∧ ∃ sd ed col mn mx me lv,
          s.summary = Summary.stats sd ed 2 s.data.length col
            (some mn) (some mx) (some me) lv
          ∧ mn ≤ me ∧ me ≤ mx := by
  obtain ⟨s, h1, h2, _, _, h5⟩ :=
    claim_C8_shape_and_stats { tickers := "AAPL" }
      (fun _ => FetchOutcome.ret (some exTable1)) 0 0 0 0 exTable1 (by decide) rfl rfl
  obtain ⟨sd, ed, col, mn, mx, me, lv, hs, hb1, hb2⟩ := h5 0 rfl rfl (by decide)
  exact ⟨s, h1, h2, sd, ed, col, mn, mx, me, lv, hs, hb1, hb2⟩

end YFinanceMCP
